import Mathlib

/-!
Verification of the Stardew Sage core services: the rate limiter
(`src/lib/rate-limit.ts`) and the feedback ledger
(`src/app/api/feedback/route.ts`), shallowly embedded as pure Lean
functions over explicit store states.
-/

namespace StardewSage

/-! ### Counter store (Redis) state

`src/lib/redis.ts` wraps the Upstash Redis REST client; the limiter uses
only `incr` and `expire`.  We model the store as a total map from keys to
counts (an absent key reads 0, so `incr` creates it at 1, matching Redis
`INCR`), a TTL map, and a log of the operations the store has received. -/

inductive RedisOp where
  | incr (key : String)
  | expire (key : String) (ttlSeconds : Nat)
  deriving DecidableEq, Repr

structure Store where
  counters : String → Nat
  ttls : String → Option Nat
  log : List RedisOp

def Store.incr (s : Store) (k : String) : Nat × Store :=
  let n := s.counters k + 1
  (n, { s with counters := Function.update s.counters k n, log := s.log ++ [RedisOp.incr k] })

def Store.expire (s : Store) (k : String) (ttl : Nat) : Store :=
  { s with ttls := Function.update s.ttls k (some ttl), log := s.log ++ [RedisOp.expire k ttl] }

def emptyStore : Store :=
  { counters := fun _ => 0, ttls := fun _ => none, log := [] }

@[simp] lemma counters_expire (s : Store) (k : String) (ttl : Nat) :
    (s.expire k ttl).counters = s.counters := rfl

@[simp] lemma counters_incr_same (s : Store) (k : String) :
    (s.incr k).2.counters k = s.counters k + 1 := by
  simp [Store.incr]

@[simp] lemma counters_incr_other (s : Store) (k k2 : String) (h : k2 ≠ k) :
    (s.incr k).2.counters k2 = s.counters k2 := by
  simp [Store.incr, Function.update_noteq h]

@[simp] lemma fst_incr (s : Store) (k : String) :
    (s.incr k).1 = s.counters k + 1 := rfl

/-! ### Rate limiter (`src/lib/rate-limit.ts`)

Constants from the source. -/

def WINDOW_SECONDS : Nat := 60
def MAX_REQUESTS_PER_WINDOW : Nat := 5
def DAILY_WINDOW_SECONDS : Nat := 60 * 60 * 24
def MAX_REQUESTS_PER_DAY : Nat := 100

inductive RateLimitResult where
  | success
  | denied (retryAfter : Nat)
  deriving DecidableEq, Repr

structure RateKeys where
  minuteKey : String
  dayKey : String
  deriving DecidableEq, Repr

/-- `getIdentifiers` from `src/lib/rate-limit.ts`.  `nowMs` abstracts
`Date.now()` (non-negative milliseconds, so `Math.floor` is `Nat` division)
and `dayStr` abstracts `new Date().toISOString().slice(0, 10)`, the UTC
calendar date derived from the same clock. -/
def getIdentifiers (identifier : String) (nowMs : Nat) (dayStr : String) : RateKeys :=
  let nowSeconds := nowMs / 1000
  let currentWindow := nowSeconds / 60
  { minuteKey := "chat:rl:minute:" ++ identifier ++ ":" ++ toString currentWindow,
    dayKey := "chat:rl:day:" ++ identifier ++ ":" ++ dayStr }

/-- Body of `checkRateLimit` once the keys are computed: increment the
minute counter (setting its TTL when freshly created), reject with
`retryAfter = 60` past the minute cap, otherwise increment the day counter
(setting its TTL when freshly created), re-test the minute cap as the
source does, reject with `retryAfter = 86400` past the day cap, else allow. -/
def checkStep (k : RateKeys) (s : Store) : RateLimitResult × Store :=
  let p1 := s.incr k.minuteKey
  let minuteCount := p1.1
  let s2 := if minuteCount = 1 then p1.2.expire k.minuteKey WINDOW_SECONDS else p1.2
  if minuteCount > MAX_REQUESTS_PER_WINDOW then (RateLimitResult.denied WINDOW_SECONDS, s2)
  else
    let p2 := s2.incr k.dayKey
    let dayCount := p2.1
    let s4 := if dayCount = 1 then p2.2.expire k.dayKey DAILY_WINDOW_SECONDS else p2.2
    if minuteCount > MAX_REQUESTS_PER_WINDOW then (RateLimitResult.denied WINDOW_SECONDS, s4)
    else if dayCount > MAX_REQUESTS_PER_DAY then (RateLimitResult.denied DAILY_WINDOW_SECONDS, s4)
    else (RateLimitResult.success, s4)

/-- `checkRateLimit` from `src/lib/rate-limit.ts` (store-available path;
Redis transport failures would propagate as exceptions and are outside the
happy-path state semantics embedded here). -/
def checkRateLimit (identifier : String) (nowMs : Nat) (dayStr : String) (s : Store) :
    RateLimitResult × Store :=
  checkStep (getIdentifiers identifier nowMs dayStr) s

/-- The same function with the repeated minute-cap test (source lines
40–42) removed. -/
def checkStepNoRepeat (k : RateKeys) (s : Store) : RateLimitResult × Store :=
  let p1 := s.incr k.minuteKey
  let minuteCount := p1.1
  let s2 := if minuteCount = 1 then p1.2.expire k.minuteKey WINDOW_SECONDS else p1.2
  if minuteCount > MAX_REQUESTS_PER_WINDOW then (RateLimitResult.denied WINDOW_SECONDS, s2)
  else
    let p2 := s2.incr k.dayKey
    let dayCount := p2.1
    let s4 := if dayCount = 1 then p2.2.expire k.dayKey DAILY_WINDOW_SECONDS else p2.2
    if dayCount > MAX_REQUESTS_PER_DAY then (RateLimitResult.denied DAILY_WINDOW_SECONDS, s4)
    else (RateLimitResult.success, s4)

def checkRateLimitNoRepeat (identifier : String) (nowMs : Nat) (dayStr : String) (s : Store) :
    RateLimitResult × Store :=
  checkStepNoRepeat (getIdentifiers identifier nowMs dayStr) s

/-! ### Key disjointness -/

lemma ne_of_data_getElem_ne (s t : String) (n : Nat)
    (h : s.data[n]? ≠ t.data[n]?) : s ≠ t :=
  fun he => h (congrArg (fun u => u.data[n]?) he)

lemma data_getElem8_append (a x y z : String) (ha : 8 < a.data.length) :
    (((a ++ x) ++ y) ++ z).data[8]? = a.data[8]? := by
  rw [String.data_append, String.data_append, String.data_append]
  rw [List.getElem?_append_left (by rw [List.length_append, List.length_append]; omega),
    List.getElem?_append_left (by rw [List.length_append]; omega),
    List.getElem?_append_left ha]

lemma minuteKey_ne_dayKey (identifier : String) (nowMs : Nat) (dayStr : String) :
    (getIdentifiers identifier nowMs dayStr).minuteKey ≠
      (getIdentifiers identifier nowMs dayStr).dayKey := by
  simp only [getIdentifiers]
  apply ne_of_data_getElem_ne _ _ 8
  rw [data_getElem8_append _ _ _ _ (by decide), data_getElem8_append _ _ _ _ (by decide)]
  decide

@[simp] lemma counters_ite (c : Prop) [Decidable c] (a b : Store) :
    (if c then a else b).counters = if c then a.counters else b.counters := by
  split <;> rfl

/-- A call whose post-increment minute count exceeds the cap: denied with
`retryAfter = 60`, the minute increment stands, every other key untouched. -/
lemma checkStep_minute_denied (k : RateKeys) (s : Store)
    (h : s.counters k.minuteKey + 1 > MAX_REQUESTS_PER_WINDOW) :
    (checkStep k s).1 = RateLimitResult.denied WINDOW_SECONDS ∧
      (checkStep k s).2.counters k.minuteKey = s.counters k.minuteKey + 1 ∧
      ∀ k2, k2 ≠ k.minuteKey → (checkStep k s).2.counters k2 = s.counters k2 := by
  refine ⟨?_, ?_, ?_⟩
  · simp [checkStep, h]
  · simp [checkStep, h, Store.incr, Store.expire, Function.update_apply]
  · intro k2 h2
    simp [checkStep, h, Store.incr, Store.expire, Function.update_apply, h2]

/-- A call that passes both caps: allowed, both counters incremented,
every other key untouched. -/
lemma checkStep_allowed (k : RateKeys) (s : Store)
    (hk : k.minuteKey ≠ k.dayKey)
    (hm : s.counters k.minuteKey + 1 ≤ MAX_REQUESTS_PER_WINDOW)
    (hd : s.counters k.dayKey + 1 ≤ MAX_REQUESTS_PER_DAY) :
    (checkStep k s).1 = RateLimitResult.success ∧
      (checkStep k s).2.counters k.minuteKey = s.counters k.minuteKey + 1 ∧
      (checkStep k s).2.counters k.dayKey = s.counters k.dayKey + 1 ∧
      ∀ k2, k2 ≠ k.minuteKey → k2 ≠ k.dayKey →
        (checkStep k s).2.counters k2 = s.counters k2 := by
  have hnm : ¬ (MAX_REQUESTS_PER_WINDOW < s.counters k.minuteKey + 1) := by omega
  have hnd : ¬ (MAX_REQUESTS_PER_DAY < s.counters k.dayKey + 1) := by omega
  have hks : k.dayKey ≠ k.minuteKey := Ne.symm hk
  refine ⟨?_, ?_, ?_, ?_⟩
  · simp [checkStep, hnm, Store.incr, Store.expire, Function.update_apply, hks, hk, hnd]
  · simp [checkStep, hnm, Store.incr, Store.expire, Function.update_apply, hks, hk, hnd]
  · simp [checkStep, hnm, Store.incr, Store.expire, Function.update_apply, hks, hk, hnd]
  · intro k2 h1 h2
    simp [checkStep, hnm, Store.incr, Store.expire, Function.update_apply, hks, hk, hnd, h1, h2]

/-- A call that passes the minute cap but overflows the day cap: denied with
`retryAfter = 86400`. -/
lemma checkStep_day_denied (k : RateKeys) (s : Store)
    (hk : k.minuteKey ≠ k.dayKey)
    (hm : s.counters k.minuteKey + 1 ≤ MAX_REQUESTS_PER_WINDOW)
    (hd : s.counters k.dayKey + 1 > MAX_REQUESTS_PER_DAY) :
    (checkStep k s).1 = RateLimitResult.denied DAILY_WINDOW_SECONDS := by
  have hnm : ¬ (MAX_REQUESTS_PER_WINDOW < s.counters k.minuteKey + 1) := by omega
  have hks : k.dayKey ≠ k.minuteKey := Ne.symm hk
  simp [checkStep, hnm, Store.incr, Store.expire, Function.update_apply, hks, hd]

/-- A sequence of `checkRateLimit` calls by one identifier, each at its own
clock reading, threading the store; returns the list of results. -/
def runCalls (identifier : String) : List (Nat × String) → Store → List RateLimitResult × Store
  | [], s => ([], s)
  | p :: ps, s =>
    let r := checkRateLimit identifier p.1 p.2 s
    let rest := runCalls identifier ps r.2
    (r.1 :: rest.1, rest.2)

lemma runCalls_append (identifier : String) (ts1 ts2 : List (Nat × String)) (s : Store) :
    runCalls identifier (ts1 ++ ts2) s =
      ((runCalls identifier ts1 s).1 ++ (runCalls identifier ts2 (runCalls identifier ts1 s).2).1,
        (runCalls identifier ts2 (runCalls identifier ts1 s).2).2) := by
  induction ts1 generalizing s with
  | nil => simp [runCalls]
  | cons p ps ih => simp [runCalls, ih]

/-- While both caps have room for the whole burst, every call in a run at a
fixed pair of window keys is allowed and both counters advance by one per
call. -/
lemma runCalls_allowed (identifier : String) (k : RateKeys)
    (hk : k.minuteKey ≠ k.dayKey) (ts : List (Nat × String)) (s : Store)
    (hts : ∀ p ∈ ts, getIdentifiers identifier p.1 p.2 = k)
    (hm : s.counters k.minuteKey + ts.length ≤ MAX_REQUESTS_PER_WINDOW)
    (hd : s.counters k.dayKey + ts.length ≤ MAX_REQUESTS_PER_DAY) :
    (runCalls identifier ts s).1 = List.replicate ts.length RateLimitResult.success ∧
      (runCalls identifier ts s).2.counters k.minuteKey = s.counters k.minuteKey + ts.length ∧
      (runCalls identifier ts s).2.counters k.dayKey = s.counters k.dayKey + ts.length := by
  induction ts generalizing s with
  | nil => simp [runCalls]
  | cons p ps ih =>
    have hkp : getIdentifiers identifier p.1 p.2 = k := hts p (by simp)
    have hm1 : s.counters k.minuteKey + 1 ≤ MAX_REQUESTS_PER_WINDOW := by
      simp [List.length_cons] at hm; omega
    have hd1 : s.counters k.dayKey + 1 ≤ MAX_REQUESTS_PER_DAY := by
      simp [List.length_cons] at hd; omega
    have hstep := checkStep_allowed k s hk hm1 hd1
    have hrun : runCalls identifier (p :: ps) s =
        ((checkStep k s).1 :: (runCalls identifier ps (checkStep k s).2).1,
          (runCalls identifier ps (checkStep k s).2).2) := by
      simp [runCalls, checkRateLimit, hkp]
    have hrec := ih (checkStep k s).2 (fun q hq => hts q (by simp [hq]))
      (by rw [hstep.2.1]; simp [List.length_cons] at hm; omega)
      (by rw [hstep.2.2.1]; simp [List.length_cons] at hd; omega)
    rw [hrun]
    refine ⟨?_, ?_, ?_⟩
    · simp [hstep.1, hrec.1, List.replicate_succ]
    · rw [hrec.2.1, hstep.2.1]
      simp [List.length_cons]
      omega
    · rw [hrec.2.2, hstep.2.2.1]
      simp [List.length_cons]
      omega

/-! ### Feedback ledger (`src/app/api/feedback/route.ts`)

The `feedback_clicks` table holds one row per accepted vote with
`button_type` and `user_fingerprint` columns.  The Supabase interactions
are modelled through the narrow store interface of the spec: a point
lookup for the pre-check, an insert guarded by the uniqueness constraint
on (`button_type`, `user_fingerprint`), and a per-category row count. -/

structure VoteRow where
  button_type : String
  user_fingerprint : String
  deriving DecidableEq, Repr

inductive DbOp where
  | selectExisting (buttonType fingerprint : String)
  | insertRow (buttonType fingerprint : String)
  | countRows (buttonType : String)
  deriving DecidableEq, Repr

structure DB where
  rows : List VoteRow
  log : List DbOp
  deriving DecidableEq, Repr

def emptyDB : DB := { rows := [], log := [] }

/-- Whether the table already holds a row for this (category, fingerprint)
pair. -/
def hasVote (rows : List VoteRow) (t f : String) : Bool :=
  rows.any fun r => r.button_type = t ∧ r.user_fingerprint = f

/-- Number of accepted votes for a category: the spec's Counter Store
`count(table, filter)` primitive over the rows. -/
def countVotes (rows : List VoteRow) (t : String) : Nat :=
  (rows.filter fun r => r.button_type = t).length

/-- Modelled from the spec: the store's `insertIfAbsent` primitive — the
repository's SQL schema (the uniqueness constraint on
(`button_type`, `user_fingerprint`) backing `.insert`) is not under `src/`.
The insert is rejected exactly when a conflicting row already exists; the
rejected request still reaches the store, so it is logged either way. -/
def insertIfAbsent (db : DB) (t f : String) : Bool × DB :=
  if hasVote db.rows t f then
    (false, { db with log := db.log ++ [DbOp.insertRow t f] })
  else
    (true, { rows := db.rows ++ [{ button_type := t, user_fingerprint := f }],
             log := db.log ++ [DbOp.insertRow t f] })

/-- JavaScript falsiness of the request-body fields as the route sees them:
an absent field or the empty string fails `if (!type || !fingerprint ...)`. -/
def jsFalsy : Option String → Bool
  | none => true
  | some s => s = ""

/-- `['love_website', 'want_app'].includes(type)`. -/
def includedCategory (type : Option String) : Bool :=
  type = some "love_website" ∨ type = some "want_app"

/-- The route's validation guard, literally
`!(!type || !fingerprint || !includes(type))`. -/
def postValid (type fingerprint : Option String) : Bool :=
  !(jsFalsy type || jsFalsy fingerprint || !includedCategory type)

/-- JavaScript `x || d` on an optional number: `null`, `undefined` and `0`
are all falsy. -/
def jsOrNat (x : Option Nat) (d : Nat) : Nat :=
  match x with
  | none => d
  | some n => if n = 0 then d else n

inductive FeedbackPostResponse where
  | invalidRequest
  | alreadyVoted
  | insertFailed
  | ok (count : Nat)
  deriving DecidableEq, Repr

/-- `POST` of `src/app/api/feedback/route.ts`, with the pre-check reading
the snapshot `rowsCheck` of the table while the insert runs against `db` —
the two awaited store calls are distinct atomic operations, and the table
may change in between (`rowsCheck = db.rows` is the interference-free run).
On validation failure the handler returns 400 before any store call; a
found pre-check returns 409; a rejected insert throws, caught as the
generic 500 response; a successful insert re-reads the category count and
returns it (JavaScript `counts?.count || 1`). -/
def POSTraced (type fingerprint : Option String) (rowsCheck : List VoteRow) (db : DB) :
    FeedbackPostResponse × DB :=
  if !postValid type fingerprint then (FeedbackPostResponse.invalidRequest, db)
  else
    let t := type.getD ""
    let f := fingerprint.getD ""
    let db1 : DB := { db with log := db.log ++ [DbOp.selectExisting t f] }
    if hasVote rowsCheck t f then (FeedbackPostResponse.alreadyVoted, db1)
    else
      let ins := insertIfAbsent db1 t f
      if ins.1 then
        let db3 : DB := { ins.2 with log := ins.2.log ++ [DbOp.countRows t] }
        (FeedbackPostResponse.ok (jsOrNat (some (countVotes db3.rows t)) 1), db3)
      else (FeedbackPostResponse.insertFailed, ins.2)

/-- The sequential (interference-free) run of the handler: the pre-check
and the insert see the same table state. -/
def POSTfeedback (type fingerprint : Option String) (db : DB) :
    FeedbackPostResponse × DB :=
  POSTraced type fingerprint db.rows db

inductive FeedbackGetResponse where
  | ok (loveWebsite wantApp : Nat)
  | fetchFailed
  deriving DecidableEq, Repr

/-- `GET` of `src/app/api/feedback/route.ts`: one count per category of the
enumeration (store-available path; the 500 branch fires only on store
errors, which the spec's total `count` primitive excludes), each rendered
through JavaScript `x?.count || 0`. -/
def GETfeedback (db : DB) : FeedbackGetResponse × DB :=
  let c1 := countVotes db.rows "love_website"
  let c2 := countVotes db.rows "want_app"
  let db1 : DB := { db with log := db.log ++ [DbOp.countRows "love_website", DbOp.countRows "want_app"] }
  (FeedbackGetResponse.ok (jsOrNat (some c1) 0) (jsOrNat (some c2) 0), db1)

/-- The fixed category enumeration. -/
def categories : List String := ["love_website", "want_app"]

/-- The tally entry a GET response reports for a category (`none` when the
response is an error or the category unknown). -/
def tallyOf (resp : FeedbackGetResponse) (c : String) : Option Nat :=
  match resp with
  | FeedbackGetResponse.ok l w =>
    if c = "love_website" then some l
    else if c = "want_app" then some w
    else none
  | FeedbackGetResponse.fetchFailed => none

/-- `n` fully concurrent POSTs for one (category, fingerprint) pair: every
call's pre-check reads the common snapshot `rowsCheck` (all checks race
ahead of all writes), after which the store serializes the inserts. -/
def concurrentSubmit (type fingerprint : Option String) :
    Nat → List VoteRow → DB → List FeedbackPostResponse × DB
  | 0, _, db => ([], db)
  | n + 1, rowsCheck, db =>
    let r := POSTraced type fingerprint rowsCheck db
    let rest := concurrentSubmit type fingerprint n rowsCheck r.2
    (r.1 :: rest.1, rest.2)

/-! ### Feedback helper lemmas -/

@[simp] lemma hasVote_append (rows rows2 : List VoteRow) (t f : String) :
    hasVote (rows ++ rows2) t f = (hasVote rows t f || hasVote rows2 t f) := by
  simp [hasVote]

@[simp] lemma hasVote_single (t f : String) :
    hasVote [{ button_type := t, user_fingerprint := f }] t f = true := by
  simp [hasVote]

@[simp] lemma countVotes_append (rows rows2 : List VoteRow) (t : String) :
    countVotes (rows ++ rows2) t = countVotes rows t + countVotes rows2 t := by
  simp [countVotes]

@[simp] lemma countVotes_single (t f : String) :
    countVotes [{ button_type := t, user_fingerprint := f }] t = 1 := by
  simp [countVotes]

lemma postValid_of_enum (t f : String)
    (ht : t = "love_website" ∨ t = "want_app") (hf : f ≠ "") :
    postValid (some t) (some f) = true := by
  rcases ht with h | h <;> subst h <;>
    simp [postValid, jsFalsy, includedCategory, hf]

/-- A valid request whose pre-check misses while the insert still conflicts:
the handler falls into the generic 500 branch and the table is unchanged. -/
lemma POSTraced_conflict (t f : String)
    (ht : t = "love_website" ∨ t = "want_app") (hf : f ≠ "")
    (rowsCheck : List VoteRow) (db : DB)
    (hmiss : hasVote rowsCheck t f = false)
    (hconflict : hasVote db.rows t f = true) :
    (POSTraced (some t) (some f) rowsCheck db).1 = FeedbackPostResponse.insertFailed ∧
      (POSTraced (some t) (some f) rowsCheck db).2.rows = db.rows := by
  constructor <;>
    simp [POSTraced, postValid_of_enum t f ht hf, hmiss, insertIfAbsent, hconflict]

/-- A valid request whose pre-check hits: 409, no mutation. -/
lemma POSTraced_dup (t f : String)
    (ht : t = "love_website" ∨ t = "want_app") (hf : f ≠ "")
    (rowsCheck : List VoteRow) (db : DB)
    (hhit : hasVote rowsCheck t f = true) :
    (POSTraced (some t) (some f) rowsCheck db).1 = FeedbackPostResponse.alreadyVoted ∧
      (POSTraced (some t) (some f) rowsCheck db).2.rows = db.rows := by
  constructor <;> simp [POSTraced, postValid_of_enum t f ht hf, hhit]

/-- A valid request with no prior vote anywhere: accepted, the row is
appended, and the reported count is the old tally plus one. -/
lemma POSTraced_accept (t f : String)
    (ht : t = "love_website" ∨ t = "want_app") (hf : f ≠ "")
    (rowsCheck : List VoteRow) (db : DB)
    (hmiss : hasVote rowsCheck t f = false)
    (hnoc : hasVote db.rows t f = false) :
    (POSTraced (some t) (some f) rowsCheck db).1 =
        FeedbackPostResponse.ok (countVotes db.rows t + 1) ∧
      (POSTraced (some t) (some f) rowsCheck db).2.rows =
        db.rows ++ [{ button_type := t, user_fingerprint := f }] := by
  constructor <;>
    simp [POSTraced, postValid_of_enum t f ht hf, hmiss, insertIfAbsent, hnoc, jsOrNat]

/-- Once a conflicting row is in the table and every pre-check reads the
stale snapshot, each remaining concurrent call fails its insert with the
generic 500 response and the table stays as it is. -/
lemma concurrentSubmit_losers (t f : String)
    (ht : t = "love_website" ∨ t = "want_app") (hf : f ≠ "")
    (m : Nat) (rowsCheck : List VoteRow) (db : DB)
    (hmiss : hasVote rowsCheck t f = false)
    (hconflict : hasVote db.rows t f = true) :
    (concurrentSubmit (some t) (some f) m rowsCheck db).1 =
        List.replicate m FeedbackPostResponse.insertFailed ∧
      (concurrentSubmit (some t) (some f) m rowsCheck db).2.rows = db.rows := by
  induction m generalizing db with
  | zero => simp [concurrentSubmit]
  | succ m ih =>
    have hstep := POSTraced_conflict t f ht hf rowsCheck db hmiss hconflict
    have hrec := ih (POSTraced (some t) (some f) rowsCheck db).2
      (by rw [hstep.2]; exact hconflict)
    constructor
    · simp [concurrentSubmit, hstep.1, hrec.1, List.replicate_succ]
    · simp [concurrentSubmit, hrec.2, hstep.2]

@[simp] lemma snd_counters_ite (c : Prop) [Decidable c] (a b : RateLimitResult × Store) :
    (if c then a else b).2.counters = if c then a.2.counters else b.2.counters := by
  split <;> rfl

/-- The minute counter is incremented by every call, on every path. -/
lemma checkStep_minute_incr (k : RateKeys) (s : Store) (hk : k.minuteKey ≠ k.dayKey) :
    (checkStep k s).2.counters k.minuteKey = s.counters k.minuteKey + 1 := by
  by_cases h : MAX_REQUESTS_PER_WINDOW < s.counters k.minuteKey + 1
  · exact (checkStep_minute_denied k s h).2.1
  · simp [checkStep, h, Store.incr, Store.expire, Function.update_apply, hk, Ne.symm hk]

/-- The repeated minute-cap test after the day increment never fires. -/
lemma checkStep_eq_noRepeat (k : RateKeys) (s : Store) :
    checkStep k s = checkStepNoRepeat k s := by
  by_cases h : MAX_REQUESTS_PER_WINDOW < s.counters k.minuteKey + 1 <;>
    simp [checkStep, checkStepNoRepeat, h]

/-! ### Claims about the rate limiter -/

/-- C2: for an identifier whose day budget still has room, among 6
`checkRateLimit` calls falling in the same 60-second minute window (and
hence the same UTC day), the first 5 return Allowed and the 6th returns
Denied with `retryAfter = 60`. -/
theorem claim_C2_minute_cap (identifier : String) (p1 p2 p3 p4 p5 p6 : Nat × String)
    (s : Store)
    (hsame : ∀ p ∈ [p1, p2, p3, p4, p5, p6],
      getIdentifiers identifier p.1 p.2 = getIdentifiers identifier p1.1 p1.2)
    (hm0 : s.counters (getIdentifiers identifier p1.1 p1.2).minuteKey = 0)
    (hday : s.counters (getIdentifiers identifier p1.1 p1.2).dayKey + 5 ≤ MAX_REQUESTS_PER_DAY) :
    (runCalls identifier [p1, p2, p3, p4, p5, p6] s).1 =
      [RateLimitResult.success, RateLimitResult.success, RateLimitResult.success,
        RateLimitResult.success, RateLimitResult.success, RateLimitResult.denied 60] := by
  have hk : (getIdentifiers identifier p1.1 p1.2).minuteKey ≠
      (getIdentifiers identifier p1.1 p1.2).dayKey := minuteKey_ne_dayKey identifier p1.1 p1.2
  have hfirst := runCalls_allowed identifier (getIdentifiers identifier p1.1 p1.2) hk
    [p1, p2, p3, p4, p5] s
    (fun q hq => hsame q (by simp at hq ⊢; tauto))
    (by rw [hm0]; simp [MAX_REQUESTS_PER_WINDOW])
    (by simpa using hday)
  have hlist : [p1, p2, p3, p4, p5, p6] = [p1, p2, p3, p4, p5] ++ [p6] := rfl
  rw [hlist, runCalls_append, hfirst.1]
  have hk6 : getIdentifiers identifier p6.1 p6.2 = getIdentifiers identifier p1.1 p1.2 :=
    hsame p6 (by simp)
  have hden := checkStep_minute_denied (getIdentifiers identifier p1.1 p1.2)
    (runCalls identifier [p1, p2, p3, p4, p5] s).2
    (by rw [hfirst.2.1, hm0]; simp [MAX_REQUESTS_PER_WINDOW])
  generalize hs5 : (runCalls identifier [p1, p2, p3, p4, p5] s).2 = s5 at hden ⊢
  simp only [runCalls, checkRateLimit, hk6]
  rw [hden.1]
  simp [WINDOW_SECONDS, List.replicate]

/-- C2 witness: a concrete burst of six calls by "1.2.3.4" at time 0 on an
empty store. -/
theorem claim_C2_minute_cap_witness :
    emptyStore.counters (getIdentifiers "1.2.3.4" 0 "1970-01-01").minuteKey = 0 ∧
      (runCalls "1.2.3.4"
        [(0, "1970-01-01"), (0, "1970-01-01"), (0, "1970-01-01"),
          (0, "1970-01-01"), (0, "1970-01-01"), (0, "1970-01-01")] emptyStore).1 =
      [RateLimitResult.success, RateLimitResult.success, RateLimitResult.success,
        RateLimitResult.success, RateLimitResult.success, RateLimitResult.denied 60] :=
  ⟨rfl, claim_C2_minute_cap "1.2.3.4"
    (0, "1970-01-01") (0, "1970-01-01") (0, "1970-01-01")
    (0, "1970-01-01") (0, "1970-01-01") (0, "1970-01-01") emptyStore
    (by intro p hp; simp at hp; subst hp; rfl)
    rfl (by decide)⟩

/-- C3: whenever the post-increment minute count exceeds 5, the call
returns Denied(60), the day counter is untouched, and the minute increment
stands. -/
theorem claim_C3_minute_denied_frame (identifier : String) (nowMs : Nat) (dayStr : String)
    (s : Store)
    (h : s.counters (getIdentifiers identifier nowMs dayStr).minuteKey + 1 >
      MAX_REQUESTS_PER_WINDOW) :
    (checkRateLimit identifier nowMs dayStr s).1 = RateLimitResult.denied 60 ∧
      (checkRateLimit identifier nowMs dayStr s).2.counters
          (getIdentifiers identifier nowMs dayStr).dayKey =
        s.counters (getIdentifiers identifier nowMs dayStr).dayKey ∧
      (checkRateLimit identifier nowMs dayStr s).2.counters
          (getIdentifiers identifier nowMs dayStr).minuteKey =
        s.counters (getIdentifiers identifier nowMs dayStr).minuteKey + 1 := by
  have hden := checkStep_minute_denied (getIdentifiers identifier nowMs dayStr) s h
  exact ⟨hden.1, hden.2.2 _ (Ne.symm (minuteKey_ne_dayKey identifier nowMs dayStr)), hden.2.1⟩

def c3Store : Store :=
  { counters := Function.update (fun _ => 0) "chat:rl:minute:a:0" 5,
    ttls := fun _ => none, log := [] }

/-- C3 witness: identifier "a" at time 0 with its minute counter already
at 5. -/
theorem claim_C3_minute_denied_frame_witness :
    c3Store.counters (getIdentifiers "a" 0 "1970-01-01").minuteKey + 1 >
        MAX_REQUESTS_PER_WINDOW ∧
      ((checkRateLimit "a" 0 "1970-01-01" c3Store).1 = RateLimitResult.denied 60 ∧
        (checkRateLimit "a" 0 "1970-01-01" c3Store).2.counters
            (getIdentifiers "a" 0 "1970-01-01").dayKey =
          c3Store.counters (getIdentifiers "a" 0 "1970-01-01").dayKey ∧
        (checkRateLimit "a" 0 "1970-01-01" c3Store).2.counters
            (getIdentifiers "a" 0 "1970-01-01").minuteKey =
          c3Store.counters (getIdentifiers "a" 0 "1970-01-01").minuteKey + 1) :=
  ⟨by decide, claim_C3_minute_denied_frame "a" 0 "1970-01-01" c3Store (by decide)⟩

/-- C4: a call that passes the minute check (post-increment count at most
5) while the post-increment day count exceeds 100 returns Denied with
`retryAfter = 86400`, whatever the rest of the store looks like (so in
particular independently of minute-window resets within the day). -/
theorem claim_C4_day_cap (identifier : String) (nowMs : Nat) (dayStr : String) (s : Store)
    (h1 : s.counters (getIdentifiers identifier nowMs dayStr).minuteKey + 1 ≤
      MAX_REQUESTS_PER_WINDOW)
    (h2 : s.counters (getIdentifiers identifier nowMs dayStr).dayKey + 1 >
      MAX_REQUESTS_PER_DAY) :
    (checkRateLimit identifier nowMs dayStr s).1 = RateLimitResult.denied 86400 := by
  have hd := checkStep_day_denied (getIdentifiers identifier nowMs dayStr) s
    (minuteKey_ne_dayKey identifier nowMs dayStr) h1 h2
  rw [checkRateLimit, hd]
  decide

def c4Store : Store :=
  { counters := Function.update (fun _ => 0) "chat:rl:day:a:1970-01-01" 100,
    ttls := fun _ => none, log := [] }

/-- C4 witness: identifier "a" with a fresh minute window and the day
counter already at 100: the 101st minute-allowed call of the day. -/
theorem claim_C4_day_cap_witness :
    c4Store.counters (getIdentifiers "a" 0 "1970-01-01").minuteKey + 1 ≤
        MAX_REQUESTS_PER_WINDOW ∧
      c4Store.counters (getIdentifiers "a" 0 "1970-01-01").dayKey + 1 >
        MAX_REQUESTS_PER_DAY ∧
      (checkRateLimit "a" 0 "1970-01-01" c4Store).1 = RateLimitResult.denied 86400 :=
  ⟨by decide, by decide, claim_C4_day_cap "a" 0 "1970-01-01" c4Store (by decide) (by decide)⟩

/-- C7 counterexample: the claim's key shapes miss the `chat:` prefix the
source interpolates; at identifier "a", time 0, neither store key matches
the claimed composition. -/
theorem claim_C7_counterexample :
    (getIdentifiers "a" 0 "1970-01-01").minuteKey ≠
        "rl:minute:" ++ "a" ++ ":" ++ toString ((0 / 1000) / 60 : Nat) ∧
      (getIdentifiers "a" 0 "1970-01-01").dayKey ≠
        "rl:day:" ++ "a" ++ ":" ++ "1970-01-01" := by
  decide

/-- C7 amended: the keys are composed exactly as the claim says except that
the whole key carries a leading `chat:` application prefix:
`minuteKey = "chat:" + ("rl:minute:" + identifier + ":" + floor(nowSeconds / 60))`
and `dayKey = "chat:" + ("rl:day:" + identifier + ":" + currentDay)`. -/
theorem claim_C7_amended (identifier : String) (nowMs : Nat) (dayStr : String) :
    (getIdentifiers identifier nowMs dayStr).minuteKey =
        "chat:" ++ ("rl:minute:" ++ identifier ++ ":" ++ toString (nowMs / 1000 / 60)) ∧
      (getIdentifiers identifier nowMs dayStr).dayKey =
        "chat:" ++ ("rl:day:" ++ identifier ++ ":" ++ dayStr) := by
  have hm : ("chat:rl:minute:" : String).data =
      ("chat:" : String).data ++ ("rl:minute:" : String).data := by decide
  have hd : ("chat:rl:day:" : String).data =
      ("chat:" : String).data ++ ("rl:day:" : String).data := by decide
  constructor
  · apply String.ext
    simp [getIdentifiers, String.data_append, List.append_assoc, hm]
  · apply String.ext
    simp [getIdentifiers, String.data_append, List.append_assoc, hd]

/-- C10: the repeated minute-cap test after the day increment is dead code:
`checkRateLimit` is extensionally equal to the variant with it removed. -/
theorem claim_C10_repeated_check_dead (identifier : String) (nowMs : Nat) (dayStr : String)
    (s : Store) :
    checkRateLimit identifier nowMs dayStr s = checkRateLimitNoRepeat identifier nowMs dayStr s :=
  checkStep_eq_noRepeat (getIdentifiers identifier nowMs dayStr) s

/-- C8 counterexample: an empty-string identifier is not rejected locally —
the call goes through to the store (the store log grows) and even returns
Allowed. -/
theorem claim_C8_counterexample :
    (checkRateLimit "" 0 "1970-01-01" emptyStore).1 = RateLimitResult.success ∧
      (checkRateLimit "" 0 "1970-01-01" emptyStore).2.log ≠ emptyStore.log := by
  decide

/-- C8 amended: the feedback route does reject malformed input (missing or
empty `type`/`fingerprint`, category outside the enumeration) before any
store operation, but `checkRateLimit` performs no identifier validation:
every call — including one with the empty identifier — reaches the store
and increments the minute counter. -/
theorem claim_C8_validation_split :
    (∀ type fingerprint : Option String, ∀ db : DB, postValid type fingerprint = false →
        POSTfeedback type fingerprint db = (FeedbackPostResponse.invalidRequest, db)) ∧
      ∀ identifier : String, ∀ nowMs : Nat, ∀ dayStr : String, ∀ s : Store,
        (checkRateLimit identifier nowMs dayStr s).2.counters
            (getIdentifiers identifier nowMs dayStr).minuteKey =
          s.counters (getIdentifiers identifier nowMs dayStr).minuteKey + 1 := by
  constructor
  · intro type fingerprint db hbad
    simp [POSTfeedback, POSTraced, hbad]
  · intro identifier nowMs dayStr s
    exact checkStep_minute_incr _ s (minuteKey_ne_dayKey identifier nowMs dayStr)

/-- C8 witness: a missing `type` is rejected with no store effect, and the
empty identifier still increments its minute counter. -/
theorem claim_C8_validation_split_witness :
    (postValid none (some "x") = false ∧
        POSTfeedback none (some "x") emptyDB = (FeedbackPostResponse.invalidRequest, emptyDB)) ∧
      (checkRateLimit "" 0 "1970-01-01" emptyStore).2.counters
          (getIdentifiers "" 0 "1970-01-01").minuteKey =
        emptyStore.counters (getIdentifiers "" 0 "1970-01-01").minuteKey + 1 :=
  ⟨⟨by decide, claim_C8_validation_split.1 none (some "x") emptyDB (by decide)⟩,
    claim_C8_validation_split.2 "" 0 "1970-01-01" emptyStore⟩

/-! ### Claims about the feedback ledger -/

/-- C1 counterexample: when the pre-check misses but the insert hits the
uniqueness constraint, the handler returns the generic 500 outcome, not the
409 Duplicate outcome the claim requires. -/
theorem claim_C1_counterexample :
    (POSTraced (some "love_website") (some "f1") []
        { rows := [{ button_type := "love_website", user_fingerprint := "f1" }],
          log := [] }).1 = FeedbackPostResponse.insertFailed ∧
      FeedbackPostResponse.insertFailed ≠ FeedbackPostResponse.alreadyVoted := by
  decide

/-- C1 amended: for every category of the enumeration and every non-empty
fingerprint, when the pre-check finds no prior vote but the store insert is
rejected by the uniqueness constraint, the handler returns the generic 500
insert-failure outcome (the same response as a store failure), not the
Duplicate outcome. -/
theorem claim_C1_insert_conflict_is_500 (t f : String)
    (ht : t = "love_website" ∨ t = "want_app") (hf : f ≠ "")
    (rowsCheck : List VoteRow) (db : DB)
    (hmiss : hasVote rowsCheck t f = false)
    (hconflict : hasVote db.rows t f = true) :
    (POSTraced (some t) (some f) rowsCheck db).1 = FeedbackPostResponse.insertFailed ∧
      (POSTraced (some t) (some f) rowsCheck db).1 ≠ FeedbackPostResponse.alreadyVoted := by
  have h := POSTraced_conflict t f ht hf rowsCheck db hmiss hconflict
  exact ⟨h.1, by rw [h.1]; decide⟩

/-- C1 witness: the concrete race of the counterexample, through the
amended theorem. -/
theorem claim_C1_insert_conflict_is_500_witness :
    hasVote [] "love_website" "f1" = false ∧
      ((POSTraced (some "love_website") (some "f1") []
          { rows := [{ button_type := "love_website", user_fingerprint := "f1" }],
            log := [] }).1 = FeedbackPostResponse.insertFailed ∧
        (POSTraced (some "love_website") (some "f1") []
          { rows := [{ button_type := "love_website", user_fingerprint := "f1" }],
            log := [] }).1 ≠ FeedbackPostResponse.alreadyVoted) :=
  ⟨by decide, claim_C1_insert_conflict_is_500 "love_website" "f1" (Or.inl rfl) (by decide)
    [] { rows := [{ button_type := "love_website", user_fingerprint := "f1" }], log := [] }
    (by decide) (by decide)⟩

/-- C5: with no prior vote for the (category, fingerprint) pair, the first
submit is Accepted with the tally bumped by one, the second is Duplicate,
performs no mutation, and the tally has increased by exactly 1, not 2. -/
theorem claim_C5_vote_idempotent (t f : String)
    (ht : t = "love_website" ∨ t = "want_app") (hf : f ≠ "") (db : DB)
    (hfresh : hasVote db.rows t f = false) :
    (POSTfeedback (some t) (some f) db).1 =
        FeedbackPostResponse.ok (countVotes db.rows t + 1) ∧
      (POSTfeedback (some t) (some f) (POSTfeedback (some t) (some f) db).2).1 =
        FeedbackPostResponse.alreadyVoted ∧
      (POSTfeedback (some t) (some f) (POSTfeedback (some t) (some f) db).2).2.rows =
        (POSTfeedback (some t) (some f) db).2.rows ∧
      countVotes (POSTfeedback (some t) (some f) (POSTfeedback (some t) (some f) db).2).2.rows t =
        countVotes db.rows t + 1 := by
  have h1 := POSTraced_accept t f ht hf db.rows db hfresh hfresh
  have hhit : hasVote (POSTfeedback (some t) (some f) db).2.rows t f = true := by
    have := h1.2
    simp only [POSTfeedback] at *
    rw [this]
    simp
  have h2 := POSTraced_dup t f ht hf (POSTfeedback (some t) (some f) db).2.rows
    (POSTfeedback (some t) (some f) db).2 hhit
  refine ⟨h1.1, h2.1, h2.2, ?_⟩
  have hrows : (POSTfeedback (some t) (some f) db).2.rows =
      db.rows ++ [{ button_type := t, user_fingerprint := f }] := h1.2
  rw [show (POSTfeedback (some t) (some f) (POSTfeedback (some t) (some f) db).2).2.rows =
      (POSTfeedback (some t) (some f) db).2.rows from h2.2, hrows]
  simp

/-- C5 witness: fingerprint "f1" voting "love_website" twice on an empty
table. -/
theorem claim_C5_vote_idempotent_witness :
    hasVote emptyDB.rows "love_website" "f1" = false ∧
      ((POSTfeedback (some "love_website") (some "f1") emptyDB).1 =
          FeedbackPostResponse.ok (countVotes emptyDB.rows "love_website" + 1) ∧
        (POSTfeedback (some "love_website") (some "f1")
            (POSTfeedback (some "love_website") (some "f1") emptyDB).2).1 =
          FeedbackPostResponse.alreadyVoted ∧
        (POSTfeedback (some "love_website") (some "f1")
            (POSTfeedback (some "love_website") (some "f1") emptyDB).2).2.rows =
          (POSTfeedback (some "love_website") (some "f1") emptyDB).2.rows ∧
        countVotes (POSTfeedback (some "love_website") (some "f1")
            (POSTfeedback (some "love_website") (some "f1") emptyDB).2).2.rows "love_website" =
          countVotes emptyDB.rows "love_website" + 1) :=
  ⟨by decide, claim_C5_vote_idempotent "love_website" "f1" (Or.inl rfl) (by decide)
    emptyDB (by decide)⟩

/-- C6: for every table state, the GET tally succeeds and reports an entry
for every category of the enumeration, equal to that category's row count —
in particular a category with zero votes is reported as 0, never omitted. -/
theorem claim_C6_tally_complete (db : DB) (c : String) (hc : c ∈ categories) :
    tallyOf (GETfeedback db).1 c = some (countVotes db.rows c) := by
  have hc2 : c = "love_website" ∨ c = "want_app" := by simpa [categories] using hc
  rcases hc2 with h | h <;> subst h <;> simp [GETfeedback, tallyOf, jsOrNat] <;>
    intro h0 <;> omega

/-- C6 witness: the empty table reports "love_website" with count 0 rather
than omitting it. -/
theorem claim_C6_tally_complete_witness :
    "love_website" ∈ categories ∧
      tallyOf (GETfeedback emptyDB).1 "love_website" =
        some (countVotes emptyDB.rows "love_website") :=
  ⟨by decide, claim_C6_tally_complete emptyDB "love_website" (by decide)⟩

/-- C9 counterexample: two fully concurrent submits of the same pair yield
one Accepted and one generic 500 — not N−1 = 1 Duplicate. -/
theorem claim_C9_counterexample :
    (concurrentSubmit (some "love_website") (some "f1") 2 [] emptyDB).1 =
        [FeedbackPostResponse.ok 1, FeedbackPostResponse.insertFailed] ∧
      (concurrentSubmit (some "love_website") (some "f1") 2 [] emptyDB).1.count
          FeedbackPostResponse.alreadyVoted ≠ 2 - 1 := by
  decide

/-- C9 amended: under the fully concurrent schedule (every pre-check reads
the initial snapshot, the store then serializes the inserts), exactly one
of the N calls is Accepted; the other N−1 fail their insert on the
uniqueness constraint and return the generic 500 outcome, not Duplicate. -/
theorem claim_C9_concurrent_one_accepted (n : Nat) (t f : String)
    (ht : t = "love_website" ∨ t = "want_app") (hf : f ≠ "") (db0 : DB)
    (hfresh : hasVote db0.rows t f = false) :
    (concurrentSubmit (some t) (some f) (n + 1) db0.rows db0).1 =
      FeedbackPostResponse.ok (countVotes db0.rows t + 1) ::
        List.replicate n FeedbackPostResponse.insertFailed := by
  have hacc := POSTraced_accept t f ht hf db0.rows db0 hfresh hfresh
  have hconf : hasVote (POSTraced (some t) (some f) db0.rows db0).2.rows t f = true := by
    rw [hacc.2]; simp
  have hlose := concurrentSubmit_losers t f ht hf n db0.rows
    (POSTraced (some t) (some f) db0.rows db0).2 hfresh hconf
  simp [concurrentSubmit, hacc.1, hlose.1]

/-- C9 witness: two concurrent submits on an empty table through the
amended theorem. -/
theorem claim_C9_concurrent_one_accepted_witness :
    hasVote emptyDB.rows "love_website" "f1" = false ∧
      (concurrentSubmit (some "love_website") (some "f1") 2 emptyDB.rows emptyDB).1 =
        FeedbackPostResponse.ok (countVotes emptyDB.rows "love_website" + 1) ::
          List.replicate 1 FeedbackPostResponse.insertFailed :=
  ⟨by decide, claim_C9_concurrent_one_accepted 1 "love_website" "f1" (Or.inl rfl) (by decide)
    emptyDB (by decide)⟩

end StardewSage
